import Mathlib

/-!
# Verification of the video-pipeline core

A shallow embedding of the asynchronous video-generation pipeline:
the document store of `Video` records, the in-memory operation cache,
the status-reconciliation flow (`checkVideoStatusFlow`), the job
submission service (`createAndProcessVideo`) and the auto-pilot
scheduler (`runAutoPilot`).

External collaborators (script generator, metadata optimizer, render
submitter, speech generator, asset store, series strategist, clock)
are modelled as environment records whose fallible calls return
`Except String α`.  The document store and the operation cache are
explicit state, threaded through each operation; each top-level
operation returns its output together with the final state and the
observable effects (remote poll issued, thumbnail request fired), so
frame conditions can be stated exactly.

JavaScript truthiness on optional strings (`if (x)` for
`x : string | undefined`) is modelled by `truthy`: `none` and
`some ""` are falsy.
-/

namespace VideoPipeline

/-- Video length class, the TypeScript union `'short' | 'long'`. -/
inductive VideoLength where
  | short
  | long
deriving DecidableEq, Repr

/-- The `VideoDetails` record stored in the `videos` collection.
Timestamps are milliseconds as `Nat`; `status` is a plain string as in
the source (`'Processing' | 'Generated' | 'Scheduled' | 'Published' | 'Failed'`). -/
structure VideoDetails where
  id : String
  uid : String
  title : String
  script : String
  videoLength : Option VideoLength
  thumbnailUrl : Option String
  playlist : Option String
  status : String
  optimizedTitle : String
  optimizedDescription : Option String
  optimizedTags : Option (List String)
  optimizedCategory : Option String
  suggestedUploadTime : Option String
  createdAt : Nat
  videoUrl : Option String
  audioUrl : Option String
  operationName : Option String
deriving DecidableEq, Repr

/-- A media part of a generation-operation output
(`p.media?.url` in the source). -/
structure MediaPart where
  media : Option String
deriving DecidableEq, Repr

/-- Error payload of a finished operation (`operation.error.message`). -/
structure OpError where
  message : String
deriving DecidableEq, Repr

/-- Output payload of a generation operation:
`operation.output?.message?.content` is a list of parts. -/
structure OpOutput where
  message : Option (List MediaPart)
deriving DecidableEq, Repr

/-- A genkit render-operation descriptor. -/
structure Operation where
  name : String
  done : Bool
  error : Option OpError
  output : Option OpOutput
deriving DecidableEq, Repr

/-- A cache entry: the descriptor plus its insertion time
(`{ operation, storedAt: Date.now() }`). -/
structure OpEntry where
  operation : Operation
  storedAt : Nat
deriving DecidableEq, Repr

/-- The `videos` collection: a list of records (ids are the document keys). -/
abbrev VideoStore := List VideoDetails

/-- The process-local `videoOperations` map, keyed by operation name. -/
abbrev OpCache := List (String × OpEntry)

/-- JavaScript truthiness of an optional string: `undefined` and `""` are falsy. -/
def truthy : Option String → Bool
  | none => false
  | some s => s ≠ ""

/-- `title || "Untitled"`: JavaScript `||` with a string default. -/
def strOr (o : Option String) (d : String) : String :=
  match o with
  | some s => if s = "" then d else s
  | none => d

/-- A partial `VideoDetails` as passed to `updateVideoMetadata`
(`setDoc(..., metadata, { merge: true })`); only the fields the core
actually patches appear. -/
structure VideoPatch where
  status : Option String := none
  videoUrl : Option String := none
  audioUrl : Option String := none
  operationName : Option String := none
deriving DecidableEq, Repr

/-- Firestore merge semantics: fields present in the patch overwrite,
absent fields are kept. -/
def applyPatch (v : VideoDetails) (p : VideoPatch) : VideoDetails :=
  { v with
    status := match p.status with | some s => s | none => v.status
    videoUrl := match p.videoUrl with | some u => some u | none => v.videoUrl
    audioUrl := match p.audioUrl with | some u => some u | none => v.audioUrl
    operationName := match p.operationName with | some n => some n | none => v.operationName }

/-- `getVideo(videoId)`: a point read by document id.  Note that it takes
no requesting-user argument and applies no ownership filter. -/
def getVideo (videos : VideoStore) (videoId : String) : Option VideoDetails :=
  videos.find? (fun v => v.id == videoId)

/-- `updateVideoMetadata(videoId, metadata)`: merge the patch into the
record with the given id. -/
def updateVideoMetadata (videos : VideoStore) (videoId : String) (p : VideoPatch) : VideoStore :=
  videos.map (fun v => if v.id = videoId then applyPatch v p else v)

/-- `getAllVideos(uid)`: all records whose `uid` equals the requester. -/
def getAllVideos (videos : VideoStore) (uid : String) : List VideoDetails :=
  videos.filter (fun v => v.uid == uid)

/-- One fold step of the shorts/longs tally used by both count queries. -/
def tallyLength (acc : Nat × Nat) (v : VideoDetails) : Nat × Nat :=
  match v.videoLength with
  | some .short => (acc.1 + 1, acc.2)
  | some .long => (acc.1, acc.2 + 1)
  | none => acc

/-- The common body of `getTodaysVideoCounts` and `getThisWeeksVideoCounts`:
count the user's shorts and longs whose `createdAt` lies in the inclusive
window `[lo, hi]`.  No status filter is applied. -/
def countInWindow (videos : VideoStore) (uid : String) (lo hi : Nat) : Nat × Nat :=
  (videos.filter (fun v => v.uid == uid && decide (lo ≤ v.createdAt) && decide (v.createdAt ≤ hi))).foldl
    tallyLength (0, 0)

/-- `getPlaylists(uid)`: the distinct playlists over the user's videos,
in order of first appearance (a `Set` built by insertion). -/
def getPlaylists (videos : VideoStore) (uid : String) : List String :=
  (getAllVideos videos uid).foldl
    (fun acc v =>
      match v.playlist with
      | some p => if p ∈ acc then acc else acc ++ [p]
      | none => acc)
    []

/-- `countVideosInPlaylist(uid, playlist)`. -/
def countVideosInPlaylist (videos : VideoStore) (uid playlist : String) : Nat :=
  (videos.filter (fun v => v.uid == uid && v.playlist == some playlist)).length

/-- The cache TTL: 24 hours in milliseconds. -/
def opTTL : Nat := 24 * 60 * 60 * 1000

/-- `storeOperation(operationName, operation)`: insert or overwrite the
entry, stamped with the current time. -/
def storeOperation (ops : OpCache) (now : Nat) (operationName : String) (op : Operation) :
    OpCache :=
  (operationName, ⟨op, now⟩) :: ops.filter (fun kv => kv.1 ≠ operationName)

/-- `getOperation(operationName)`: return the cached entry, unless it has
been resident strictly longer than 24 hours, in which case it is deleted
and `none` is returned.  Returns the (possibly evicted) cache as well. -/
def getOperation (ops : OpCache) (now : Nat) (operationName : String) :
    Option OpEntry × OpCache :=
  match ops.find? (fun kv => kv.1 == operationName) with
  | none => (none, ops)
  | some kv =>
    if now - kv.2.storedAt > opTTL then
      (none, ops.filter (fun e => e.1 ≠ operationName))
    else
      (some kv.2, ops)

/-- Output of `checkVideoStatus`: a status string among
`processing | completed | failed | not_found`, plus an optional video URL. -/
structure CheckOutput where
  status : String
  videoUrl : Option String
deriving DecidableEq, Repr

/-- Environment of the status-reconciliation flow: the clock and the
external collaborators it calls.  `checkOperation` is the remote
operation poll; the storage and speech calls are fallible
(`Except String α` models a thrown exception). -/
structure CheckEnv where
  now : Nat
  checkOperation : Operation → Operation
  uploadVideo : String → String → Except String Unit
  videoDownloadUrl : String → Except String String
  generateSpeechAudio : String → Except String String
  uploadAudio : String → String → Except String Unit
  audioDownloadUrl : String → Except String String

/-- `operation.output?.message?.content.find(p => !!p.media)`, then the
`!videoMediaPart.media?.url` truthiness check: the URL of the first part
carrying media, provided that URL is non-empty. -/
def findMediaUrl (op : Operation) : Option String :=
  match op.output with
  | none => none
  | some out =>
    match out.message with
    | none => none
    | some content =>
      match content.find? (fun p => p.media.isSome) with
      | none => none
      | some p => if truthy p.media then p.media else none

/-- The fallible prefix of the asset-materialization `try` block: upload
the rendered video, derive its URL, synthesize speech audio from the
script, upload it, derive its URL.  Any step may throw. -/
def materialize (env : CheckEnv) (videoId script mediaUrl : String) :
    Except String (String × String) := do
  env.uploadVideo videoId mediaUrl
  let videoUrl ← env.videoDownloadUrl videoId
  let audioDataUri ← env.generateSpeechAudio script
  env.uploadAudio videoId audioDataUri
  let audioUrl ← env.audioDownloadUrl videoId
  Except.ok (videoUrl, audioUrl)

/-- Result of one reconciliation call: the output, the final stores, and
the observable effects (`polled`: a remote `checkOperation` was issued;
`thumbnailFired`: a thumbnail generation was kicked off). -/
structure FlowResult where
  output : CheckOutput
  videos : VideoStore
  ops : OpCache
  polled : Bool
  thumbnailFired : Bool
deriving Repr

/-- `checkVideoStatusFlow({videoId})`, the status-reconciliation engine.
Exceptions of the materialization sequence are caught (`materialize`
returning `Except.error`) and downgraded to a `Failed` status write; the
flow itself always returns a well-formed `FlowResult`. -/
def checkVideoStatusFlow (env : CheckEnv) (videos : VideoStore) (ops : OpCache)
    (videoId : String) : FlowResult :=
  match getVideo videos videoId with
  | none => ⟨⟨"not_found", none⟩, videos, ops, false, false⟩
  | some vd =>
    if truthy vd.videoUrl && truthy vd.audioUrl then
      ⟨⟨"completed", vd.videoUrl⟩, videos, ops, false, false⟩
    else if ¬ truthy vd.operationName then
      ⟨⟨"failed", none⟩, updateVideoMetadata videos videoId { status := some "Failed" },
        ops, false, false⟩
    else
      let opName := vd.operationName.getD ""
      match getOperation ops env.now opName with
      | (none, ops') =>
        ⟨⟨"failed", none⟩, updateVideoMetadata videos videoId { status := some "Failed" },
          ops', false, false⟩
      | (some info, ops') =>
        let polled := !info.operation.done
        let op := if info.operation.done then info.operation else env.checkOperation info.operation
        if op.done then
          if op.error.isSome then
            ⟨⟨"failed", none⟩, updateVideoMetadata videos videoId { status := some "Failed" },
              ops', polled, false⟩
          else
            match findMediaUrl op with
            | none =>
              ⟨⟨"failed", none⟩, updateVideoMetadata videos videoId { status := some "Failed" },
                ops', polled, false⟩
            | some mediaUrl =>
              match materialize env videoId vd.script mediaUrl with
              | Except.ok (videoUrl, audioUrl) =>
                let finalStatus := if truthy vd.suggestedUploadTime then "Scheduled" else "Generated"
                ⟨⟨"completed", some videoUrl⟩,
                  updateVideoMetadata videos videoId
                    { status := some finalStatus, videoUrl := some videoUrl,
                      audioUrl := some audioUrl },
                  ops', polled, true⟩
              | Except.error _ =>
                ⟨⟨"failed", none⟩, updateVideoMetadata videos videoId { status := some "Failed" },
                  ops', polled, false⟩
        else
          ⟨⟨"processing", none⟩, videos, ops', polled, false⟩

/-- Result of `generateVideoScript`. -/
structure ScriptResult where
  title : String
  script : String
  topic : String
deriving DecidableEq, Repr

/-- Input of `generateVideoScript`. -/
structure GenScriptInput where
  length : VideoLength
  topic : Option String
  videoTitle : Option String
  inspirationVideoUrl : Option String
deriving DecidableEq, Repr

/-- Input of `optimizeYoutubeUpload`. -/
structure OptimizeInput where
  videoTitle : String
  script : String
  videoCategory : String
  videoDescription : String
  videoTags : String
deriving DecidableEq, Repr

/-- Result of `optimizeYoutubeUpload`. -/
structure OptimizationResult where
  optimizedTitle : String
  optimizedDescription : String
  optimizedTags : List String
  optimizedCategory : String
  suggestedUploadTime : Option String
deriving DecidableEq, Repr

/-- Environment of the job-submission service: the clock, fresh document-id
generation, and the fallible AI collaborators.  `createAIVideo` takes the
script and the video id and yields the render operation's name. -/
structure CreateEnv where
  now : Nat
  newId : VideoStore → String
  generateVideoScript : GenScriptInput → Except String ScriptResult
  optimizeYoutubeUpload : OptimizeInput → Except String OptimizationResult
  createAIVideo : String → String → Except String String

/-- The `{videoId, optimizedTitle}` value returned on success. -/
structure CreateOk where
  videoId : String
  optimizedTitle : String
deriving DecidableEq, Repr

/-- Result of one submission call: the final stores plus the returned value
or the propagated error.  State is threaded so that writes performed before
a later failure survive, as they do in the source. -/
structure CreateOutcome where
  videos : VideoStore
  ops : OpCache
  result : Except String CreateOk
deriving Repr

/-- Step 1 of `createAndProcessVideo`: accept a user-supplied script
verbatim (with the `"Untitled"` / `"Custom Script"` fallbacks) or invoke
script generation. -/
def scriptStep (env : CreateEnv) (length : VideoLength)
    (topic title inspirationVideoUrl scriptOpt : Option String) : Except String ScriptResult :=
  if truthy scriptOpt then
    Except.ok ⟨strOr title "Untitled", scriptOpt.getD "", strOr topic "Custom Script"⟩
  else
    env.generateVideoScript ⟨length, topic, title, inspirationVideoUrl⟩

/-- `createAndProcessVideo(uid, length, playlist?, topic?, title?,
inspirationVideoUrl?, script?)`: generate (or accept) a script, optimize
metadata, persist a `Processing` record, then submit the render operation.

The render-submission step is `await createAIVideo(...)`, whose body is
not part of the core sources.  Modelled from the spec: the Render
Submitter `submit({script, videoId}) → operationName` may fail; on
success the operation descriptor enters the Operation Cache and
`operationName` is recorded on the video (§3: "`operationName` is set at
most once per generation attempt", §6 Render Submitter, §3 Operation
descriptor lifecycle: "created when a render operation is submitted"). -/
def createAndProcessVideo (env : CreateEnv) (videos : VideoStore) (ops : OpCache)
    (uid : String) (length : VideoLength)
    (playlist topic title inspirationVideoUrl scriptOpt : Option String) : CreateOutcome :=
  match scriptStep env length topic title inspirationVideoUrl scriptOpt with
  | Except.error e => ⟨videos, ops, Except.error e⟩
  | Except.ok sr =>
    match env.optimizeYoutubeUpload ⟨sr.title, sr.script, "Technology", " ", ""⟩ with
    | Except.error e => ⟨videos, ops, Except.error e⟩
    | Except.ok opt =>
      let videoId := env.newId videos
      let record : VideoDetails :=
        { id := videoId
          uid := uid
          title := sr.title
          script := sr.script
          videoLength := some length
          thumbnailUrl := none
          playlist := playlist
          status := "Processing"
          optimizedTitle := opt.optimizedTitle
          optimizedDescription := some opt.optimizedDescription
          optimizedTags := some opt.optimizedTags
          optimizedCategory := some opt.optimizedCategory
          suggestedUploadTime := opt.suggestedUploadTime
          createdAt := env.now
          videoUrl := none
          audioUrl := none
          operationName := none }
      let videos1 := videos ++ [record]
      match env.createAIVideo sr.script videoId with
      | Except.error e => ⟨videos1, ops, Except.error e⟩
      | Except.ok opName =>
        let videos2 := updateVideoMetadata videos1 videoId { operationName := some opName }
        let ops2 := storeOperation ops env.now opName ⟨opName, false, none, none⟩
        ⟨videos2, ops2, Except.ok ⟨videoId, opt.optimizedTitle⟩⟩

/-- `suggestSeriesStrategy` result. -/
structure SeriesSuggestion where
  topic : String
  playlist : String
  isNewSeries : Bool
deriving DecidableEq, Repr

/-- Environment of the auto-pilot: the submission environment, the clock
windows computed from `new Date()` (today's calendar day and the
Sunday-aligned week, both boundaries inclusive), and the series
strategist. -/
structure AutoEnv where
  create : CreateEnv
  dayStart : Nat
  dayEnd : Nat
  weekStart : Nat
  weekEnd : Nat
  suggestSeriesStrategy : List String → Except String SeriesSuggestion

/-- `getTodaysVideoCounts(uid)`: shorts and longs created in the inclusive
window of today's calendar day. -/
def getTodaysVideoCounts (env : AutoEnv) (videos : VideoStore) (uid : String) : Nat × Nat :=
  countInWindow videos uid env.dayStart env.dayEnd

/-- `getThisWeeksVideoCounts(uid)`: shorts and longs created in the
inclusive Sunday-aligned week window. -/
def getThisWeeksVideoCounts (env : AutoEnv) (videos : VideoStore) (uid : String) : Nat × Nat :=
  countInWindow videos uid env.weekStart env.weekEnd

/-- `dailyShortGoal = 3`. -/
def dailyShortGoal : Nat := 3

/-- `weeklyLongGoal = 2`. -/
def weeklyLongGoal : Nat := 2

/-- One submission request as handed to `createAndProcessVideo`
by the auto-pilot loops. -/
structure Submission where
  uid : String
  length : VideoLength
  playlist : Option String
  topic : Option String
  title : Option String
deriving DecidableEq, Repr

/-- Result of an auto-pilot run: the final stores, the submissions issued
(in order), and unit or the first propagated error (the loop aborts on
the first failing submission, leaving prior jobs created). -/
structure AutoOutcome where
  videos : VideoStore
  ops : OpCache
  submissions : List Submission
  result : Except String Unit
deriving Repr

/-- The shorts loop: submit `n` short videos sequentially, each with the
generic "a trending topic" prompt and no playlist. -/
def submitShortJobs (env : CreateEnv) (uid : String) :
    Nat → VideoStore → OpCache → AutoOutcome
  | 0, videos, ops => ⟨videos, ops, [], Except.ok ()⟩
  | n + 1, videos, ops =>
    let sub : Submission := ⟨uid, .short, none, some "a trending topic", none⟩
    let out := createAndProcessVideo env videos ops uid .short none (some "a trending topic")
      none none none
    match out.result with
    | Except.error e => ⟨out.videos, out.ops, [sub], Except.error e⟩
    | Except.ok _ =>
      let rest := submitShortJobs env uid n out.videos out.ops
      ⟨rest.videos, rest.ops, sub :: rest.submissions, rest.result⟩

/-- The long-form loop: submit `n` long videos sequentially, titled
`"{topic} - Part {part}"` with `part` incrementing, all sharing the
chosen playlist. -/
def submitLongJobs (env : CreateEnv) (uid topic playlist : String) :
    Nat → Nat → VideoStore → OpCache → AutoOutcome
  | _, 0, videos, ops => ⟨videos, ops, [], Except.ok ()⟩
  | part, n + 1, videos, ops =>
    let videoTitle := topic ++ " - Part " ++ toString part
    let sub : Submission := ⟨uid, .long, some playlist, some topic, some videoTitle⟩
    let out := createAndProcessVideo env videos ops uid .long (some playlist) (some topic)
      (some videoTitle) none none
    match out.result with
    | Except.error e => ⟨out.videos, out.ops, [sub], Except.error e⟩
    | Except.ok _ =>
      let rest := submitLongJobs env uid topic playlist (part + 1) n out.videos out.ops
      ⟨rest.videos, rest.ops, sub :: rest.submissions, rest.result⟩

/-- `runAutoPilot(uid, videoType)`: compute the deficit against the fixed
goal (daily shorts = 3, weekly longs = 2) and submit that many jobs.
On the long path, a positive deficit triggers the series strategist;
episode numbering starts at 1 for a new series and at
`countVideosInPlaylist + 1` otherwise. -/
def runAutoPilot (env : AutoEnv) (videos : VideoStore) (ops : OpCache)
    (uid : String) (videoType : VideoLength) : AutoOutcome :=
  match videoType with
  | .short =>
    let currentShorts := (getTodaysVideoCounts env videos uid).1
    let shortsNeeded := dailyShortGoal - currentShorts
    submitShortJobs env.create uid shortsNeeded videos ops
  | .long =>
    let currentLongs := (getThisWeeksVideoCounts env videos uid).2
    let longsNeeded := weeklyLongGoal - currentLongs
    if longsNeeded > 0 then
      match env.suggestSeriesStrategy (getPlaylists videos uid) with
      | Except.error e => ⟨videos, ops, [], Except.error e⟩
      | Except.ok sugg =>
        let startPart :=
          if sugg.isNewSeries then 1 else countVideosInPlaylist videos uid sugg.playlist + 1
        submitLongJobs env.create uid sugg.topic sugg.playlist startPart longsNeeded videos ops
    else
      ⟨videos, ops, [], Except.ok ()⟩

/-! ## Helper lemmas -/

/-- A patch does not change a record's document id. -/
theorem applyPatch_id (v : VideoDetails) (p : VideoPatch) : (applyPatch v p).id = v.id := rfl

/-- Reading back the patched record: a point read after a merge write
returns the patched version of what was there. -/
theorem getVideo_updateVideoMetadata (videos : VideoStore) (videoId : String) (p : VideoPatch) :
    getVideo (updateVideoMetadata videos videoId p) videoId =
      (getVideo videos videoId).map (fun v => applyPatch v p) := by
  induction videos with
  | nil => rfl
  | cons v vs ih =>
    simp only [getVideo, updateVideoMetadata, List.map_cons, List.find?_cons] at *
    by_cases h : v.id = videoId
    · simp [h, applyPatch]
    · have hb : (v.id == videoId) = false := by simp [h]
      simp [h, hb, ih]

/-! ## Demonstration data (used by witnesses and counterexamples) -/

/-- A terminal record with both asset URLs populated. -/
def demoVidDone : VideoDetails :=
  { id := "v1", uid := "alice", title := "t", script := "s", videoLength := some .short
    thumbnailUrl := none, playlist := none, status := "Generated"
    optimizedTitle := "t!", optimizedDescription := none, optimizedTags := none
    optimizedCategory := none, suggestedUploadTime := none, createdAt := 0
    videoUrl := some "https://v", audioUrl := some "https://a", operationName := none }

/-- A mid-flight record: `Processing`, no URLs, operation reference set. -/
def demoVidProcessing : VideoDetails :=
  { demoVidDone with status := "Processing", videoUrl := none, audioUrl := none
                     operationName := some "op1" }

/-- A reconciliation environment whose collaborators all succeed. -/
def demoCheckEnv : CheckEnv :=
  { now := 1000
    checkOperation := fun op => op
    uploadVideo := fun _ _ => Except.ok ()
    videoDownloadUrl := fun _ => Except.ok "https://video"
    generateSpeechAudio := fun _ => Except.ok "data:audio"
    uploadAudio := fun _ _ => Except.ok ()
    audioDownloadUrl := fun _ => Except.ok "https://audio" }

/-- A still-running operation descriptor. -/
def demoOpNotDone : Operation := ⟨"op1", false, none, none⟩

/-- A finished operation descriptor carrying rendered media. -/
def demoOpDone : Operation := ⟨"op1", true, none, some ⟨some [⟨some "data:video/mp4;base64,xyz"⟩]⟩⟩

/-! ## C2: terminal short-circuit -/

/-- C2: a record whose `videoUrl` and `audioUrl` are both populated makes
`checkVideoStatus` return `{status: completed, videoUrl}` with no remote
poll and no store write, and an immediately repeated call (under any
environment) returns the identical result. -/
theorem checkVideoStatus_terminal_short_circuit
    (env env₂ : CheckEnv) (videos : VideoStore) (ops : OpCache) (videoId : String)
    (vd : VideoDetails)
    (hfind : getVideo videos videoId = some vd)
    (hv : truthy vd.videoUrl = true)
    (ha : truthy vd.audioUrl = true) :
    checkVideoStatusFlow env videos ops videoId =
      ⟨⟨"completed", vd.videoUrl⟩, videos, ops, false, false⟩ ∧
    checkVideoStatusFlow env₂
        (checkVideoStatusFlow env videos ops videoId).videos
        (checkVideoStatusFlow env videos ops videoId).ops videoId =
      checkVideoStatusFlow env videos ops videoId := by
  have h1 : checkVideoStatusFlow env videos ops videoId =
      ⟨⟨"completed", vd.videoUrl⟩, videos, ops, false, false⟩ := by
    simp [checkVideoStatusFlow, hfind, hv, ha]
  have h2 : checkVideoStatusFlow env₂ videos ops videoId =
      ⟨⟨"completed", vd.videoUrl⟩, videos, ops, false, false⟩ := by
    simp [checkVideoStatusFlow, hfind, hv, ha]
  refine ⟨h1, ?_⟩
  rw [h1, h2]

/-- Witness for C2 at a concrete terminal record. -/
theorem checkVideoStatus_terminal_short_circuit_witness :
    checkVideoStatusFlow demoCheckEnv [demoVidDone] [] "v1" =
      ⟨⟨"completed", demoVidDone.videoUrl⟩, [demoVidDone], [], false, false⟩ ∧
    checkVideoStatusFlow demoCheckEnv
        (checkVideoStatusFlow demoCheckEnv [demoVidDone] [] "v1").videos
        (checkVideoStatusFlow demoCheckEnv [demoVidDone] [] "v1").ops "v1" =
      checkVideoStatusFlow demoCheckEnv [demoVidDone] [] "v1" :=
  checkVideoStatus_terminal_short_circuit demoCheckEnv demoCheckEnv [demoVidDone] [] "v1"
    demoVidDone rfl rfl rfl

/-! ## C9: the `processing` outcome performs no write -/

/-- C9: when the record exists without stored URLs, its operation is
cached (and fresh) but still not done after the remote re-check, the call
returns `processing` and writes nothing: the video store is unchanged and
the operation cache still holds the original descriptor with its original
`storedAt` stamp — the refreshed descriptor is not written back. -/
theorem checkVideoStatus_processing_no_write
    (env : CheckEnv) (videos : VideoStore) (ops : OpCache) (videoId : String)
    (vd : VideoDetails) (name : String) (entry : OpEntry)
    (hfind : getVideo videos videoId = some vd)
    (hurl : (truthy vd.videoUrl && truthy vd.audioUrl) = false)
    (hop : vd.operationName = some name)
    (hname : name ≠ "")
    (hcache : ops.find? (fun kv => kv.1 == name) = some (name, entry))
    (hfresh : env.now - entry.storedAt ≤ opTTL)
    (hnotdone : entry.operation.done = false)
    (hstill : (env.checkOperation entry.operation).done = false) :
    checkVideoStatusFlow env videos ops videoId =
      ⟨⟨"processing", none⟩, videos, ops, true, false⟩ := by
  have hnf : ¬ (env.now - entry.storedAt > opTTL) := by omega
  have htn : truthy (some name) = true := by simp [truthy, hname]
  have hopt : truthy vd.operationName = true := hop ▸ htn
  simp [checkVideoStatusFlow, hfind, hurl, hopt, htn, hop, getOperation, hcache, hnf,
    hnotdone, hstill]

/-- Witness for C9: a fresh, still-running operation polled at a concrete time. -/
theorem checkVideoStatus_processing_no_write_witness :
    checkVideoStatusFlow demoCheckEnv [demoVidProcessing] [("op1", ⟨demoOpNotDone, 900⟩)] "v1" =
      ⟨⟨"processing", none⟩, [demoVidProcessing], [("op1", ⟨demoOpNotDone, 900⟩)], true, false⟩ :=
  checkVideoStatus_processing_no_write demoCheckEnv [demoVidProcessing]
    [("op1", ⟨demoOpNotDone, 900⟩)] "v1" demoVidProcessing "op1" ⟨demoOpNotDone, 900⟩
    rfl rfl rfl (by decide) rfl (by decide) rfl rfl

/-! ## C5: 24-hour operation expiry -/

/-- C5: an operation descriptor stored at time `T` and looked up strictly
more than 24 hours later is treated as absent and evicted from the cache
regardless of its completion state, and a `checkVideoStatus` call at such
a time on a `Processing` record referencing it marks the record `Failed`
and returns `{status: failed}`. -/
theorem operation_expiry_drives_failed
    (env : CheckEnv) (videos : VideoStore) (ops : OpCache) (videoId : String)
    (vd : VideoDetails) (name : String) (entry : OpEntry)
    (hfind : getVideo videos videoId = some vd)
    (hstatus : vd.status = "Processing")
    (hv : vd.videoUrl = none)
    (ha : vd.audioUrl = none)
    (hop : vd.operationName = some name)
    (hname : name ≠ "")
    (hcache : ops.find? (fun kv => kv.1 == name) = some (name, entry))
    (hexp : entry.storedAt + opTTL < env.now) :
    getOperation ops env.now name = (none, ops.filter (fun e => e.1 ≠ name)) ∧
    checkVideoStatusFlow env videos ops videoId =
      ⟨⟨"failed", none⟩, updateVideoMetadata videos videoId { status := some "Failed" },
        ops.filter (fun e => e.1 ≠ name), false, false⟩ ∧
    (getVideo (checkVideoStatusFlow env videos ops videoId).videos videoId).map
        (fun v => v.status) = some "Failed" := by
  have hgt : env.now - entry.storedAt > opTTL := by omega
  have hget : getOperation ops env.now name = (none, ops.filter (fun e => e.1 ≠ name)) := by
    simp [getOperation, hcache, hgt]
  have htn : truthy (some name) = true := by simp [truthy, hname]
  have hopt : truthy vd.operationName = true := hop ▸ htn
  have hflow : checkVideoStatusFlow env videos ops videoId =
      ⟨⟨"failed", none⟩, updateVideoMetadata videos videoId { status := some "Failed" },
        ops.filter (fun e => e.1 ≠ name), false, false⟩ := by
    simp [checkVideoStatusFlow, hfind, hv, ha, truthy, hopt, htn, hop, hget]
    exact fun h => absurd h hname
  refine ⟨hget, hflow, ?_⟩
  rw [hflow]
  simp [getVideo_updateVideoMetadata, hfind, applyPatch]

/-- Witness for C5: a descriptor stored at `T = 900` polled at `T + 24h + 100ms`. -/
theorem operation_expiry_drives_failed_witness :
    getOperation [("op1", ⟨demoOpDone, 900⟩)] (900 + opTTL + 100) "op1" =
      (none, ([("op1", ⟨demoOpDone, 900⟩)] : OpCache).filter (fun e => e.1 ≠ "op1")) ∧
    checkVideoStatusFlow { demoCheckEnv with now := 900 + opTTL + 100 }
        [demoVidProcessing] [("op1", ⟨demoOpDone, 900⟩)] "v1" =
      ⟨⟨"failed", none⟩,
        updateVideoMetadata [demoVidProcessing] "v1" { status := some "Failed" },
        ([("op1", ⟨demoOpDone, 900⟩)] : OpCache).filter (fun e => e.1 ≠ "op1"), false, false⟩ ∧
    (getVideo (checkVideoStatusFlow { demoCheckEnv with now := 900 + opTTL + 100 }
        [demoVidProcessing] [("op1", ⟨demoOpDone, 900⟩)] "v1").videos "v1").map
        (fun v => v.status) = some "Failed" :=
  operation_expiry_drives_failed { demoCheckEnv with now := 900 + opTTL + 100 }
    [demoVidProcessing] [("op1", ⟨demoOpDone, 900⟩)] "v1" demoVidProcessing "op1"
    ⟨demoOpDone, 900⟩ rfl rfl rfl rfl rfl (by decide) rfl (by decide)

/-! ## C3: materialization failures are caught and downgraded -/

/-- C3: if the flow reaches the asset-materialization sequence and any of
its steps (video upload, URL derivation, speech-audio generation, audio
upload) throws, the exception is caught locally: the record is marked
`Failed`, the caller receives the well-formed `{status: failed}` object
(the flow is a total function, so nothing propagates), no thumbnail is
fired, and the record is not left reporting `Generated`.  The metadata
write itself is the document store's merge, modelled as reliable per the
spec's document-store abstraction. -/
theorem materialization_failure_caught
    (env : CheckEnv) (videos : VideoStore) (ops : OpCache) (videoId : String)
    (vd : VideoDetails) (name : String) (entry : OpEntry) (mediaUrl err : String)
    (hfind : getVideo videos videoId = some vd)
    (hurl : (truthy vd.videoUrl && truthy vd.audioUrl) = false)
    (hop : vd.operationName = some name)
    (hname : name ≠ "")
    (hcache : ops.find? (fun kv => kv.1 == name) = some (name, entry))
    (hfresh : env.now - entry.storedAt ≤ opTTL)
    (hdone : (if entry.operation.done then entry.operation
              else env.checkOperation entry.operation).done = true)
    (herr : (if entry.operation.done then entry.operation
             else env.checkOperation entry.operation).error = none)
    (hmedia : findMediaUrl (if entry.operation.done then entry.operation
              else env.checkOperation entry.operation) = some mediaUrl)
    (hfail : materialize env videoId vd.script mediaUrl = Except.error err) :
    (checkVideoStatusFlow env videos ops videoId).output = ⟨"failed", none⟩ ∧
    (checkVideoStatusFlow env videos ops videoId).videos =
      updateVideoMetadata videos videoId { status := some "Failed" } ∧
    (checkVideoStatusFlow env videos ops videoId).thumbnailFired = false ∧
    (getVideo (checkVideoStatusFlow env videos ops videoId).videos videoId).map
        (fun v => v.status) = some "Failed" := by
  have hnf : ¬ (env.now - entry.storedAt > opTTL) := by omega
  have htn : truthy (some name) = true := by simp [truthy, hname]
  have hopt : truthy vd.operationName = true := hop ▸ htn
  have hflow : checkVideoStatusFlow env videos ops videoId =
      ⟨⟨"failed", none⟩, updateVideoMetadata videos videoId { status := some "Failed" },
        ops, !entry.operation.done, false⟩ := by
    simp only [checkVideoStatusFlow, hfind, hurl, Bool.false_eq_true, if_false, hopt,
      not_true_eq_false, if_false, hop, Option.getD_some, getOperation, hcache, hnf, if_false]
    by_cases hd : entry.operation.done
    · simp only [hd, if_true] at hdone herr hmedia ⊢
      simp [hdone, herr, hmedia, hfail]
    · rw [Bool.not_eq_true] at hd
      simp only [hd, Bool.false_eq_true, if_false] at hdone herr hmedia ⊢
      simp [htn, hdone, herr, hmedia, hfail, hd]
  rw [hflow]
  refine ⟨rfl, rfl, rfl, ?_⟩
  simp [getVideo_updateVideoMetadata, hfind, applyPatch]

/-- An environment whose speech-audio synthesis throws. -/
def demoCheckEnvSpeechFail : CheckEnv :=
  { demoCheckEnv with generateSpeechAudio := fun _ => Except.error "speech synthesis failed" }

/-- Witness for C3: speech generation fails after a completed render. -/
theorem materialization_failure_caught_witness :
    (checkVideoStatusFlow demoCheckEnvSpeechFail [demoVidProcessing]
        [("op1", ⟨demoOpDone, 900⟩)] "v1").output = ⟨"failed", none⟩ ∧
    (checkVideoStatusFlow demoCheckEnvSpeechFail [demoVidProcessing]
        [("op1", ⟨demoOpDone, 900⟩)] "v1").videos =
      updateVideoMetadata [demoVidProcessing] "v1" { status := some "Failed" } ∧
    (checkVideoStatusFlow demoCheckEnvSpeechFail [demoVidProcessing]
        [("op1", ⟨demoOpDone, 900⟩)] "v1").thumbnailFired = false ∧
    (getVideo (checkVideoStatusFlow demoCheckEnvSpeechFail [demoVidProcessing]
        [("op1", ⟨demoOpDone, 900⟩)] "v1").videos "v1").map (fun v => v.status) =
      some "Failed" :=
  materialization_failure_caught demoCheckEnvSpeechFail [demoVidProcessing]
    [("op1", ⟨demoOpDone, 900⟩)] "v1" demoVidProcessing "op1" ⟨demoOpDone, 900⟩
    "data:video/mp4;base64,xyz" "speech synthesis failed"
    rfl rfl rfl (by decide) rfl (by decide) rfl rfl rfl rfl

/-! ## C4: creation failure boundaries -/

/-- A submission environment whose AI collaborators all succeed. -/
def demoCreateEnvOk : CreateEnv :=
  { now := 100
    newId := fun vs => "v" ++ toString vs.length
    generateVideoScript := fun _ => Except.ok ⟨"Title", "Script", "Topic"⟩
    optimizeYoutubeUpload := fun _ => Except.ok ⟨"Title!", "Desc", ["tag"], "Tech", none⟩
    createAIVideo := fun _ vid => Except.ok ("op-" ++ vid) }

/-- A submission environment whose render submission throws. -/
def demoCreateEnvRenderFail : CreateEnv :=
  { demoCreateEnvOk with createAIVideo := fun _ _ => Except.error "render submission failed" }

/-- C4 counterexample: a render-submission failure does NOT leave the
document store unchanged — the `Processing` record has already been
persisted when `createAIVideo` throws, so the claimed "all three failure
points occur before a record exists" is false at this input. -/
theorem createAndProcessVideo_render_failure_persists_record :
    (createAndProcessVideo demoCreateEnvRenderFail [] [] "alice" .short
        none none none none none).result = Except.error "render submission failed" ∧
    (createAndProcessVideo demoCreateEnvRenderFail [] [] "alice" .short
        none none none none none).videos ≠ ([] : VideoStore) := by
  refine ⟨rfl, ?_⟩
  decide

/-- C4 (amended): script-generation and optimization failures abort the
submission with the store and cache untouched and the error propagated;
a render-submission failure also propagates the error, but the new
`Processing` record (without asset URLs) has already been persisted and
remains in the store. -/
theorem createAndProcessVideo_failure_boundaries
    (env : CreateEnv) (videos : VideoStore) (ops : OpCache) (uid : String)
    (length : VideoLength) (playlist topic title insp scr : Option String) :
    (∀ e, scriptStep env length topic title insp scr = Except.error e →
      createAndProcessVideo env videos ops uid length playlist topic title insp scr =
        ⟨videos, ops, Except.error e⟩) ∧
    (∀ sr e, scriptStep env length topic title insp scr = Except.ok sr →
      env.optimizeYoutubeUpload ⟨sr.title, sr.script, "Technology", " ", ""⟩ =
        Except.error e →
      createAndProcessVideo env videos ops uid length playlist topic title insp scr =
        ⟨videos, ops, Except.error e⟩) ∧
    (∀ sr opt e, scriptStep env length topic title insp scr = Except.ok sr →
      env.optimizeYoutubeUpload ⟨sr.title, sr.script, "Technology", " ", ""⟩ =
        Except.ok opt →
      env.createAIVideo sr.script (env.newId videos) = Except.error e →
      ∃ record, record.status = "Processing" ∧ record.videoUrl = none ∧
        record.audioUrl = none ∧
        createAndProcessVideo env videos ops uid length playlist topic title insp scr =
          ⟨videos ++ [record], ops, Except.error e⟩) := by
  refine ⟨?_, ?_, ?_⟩
  · intro e he
    simp [createAndProcessVideo, he]
  · intro sr e hs ho
    simp [createAndProcessVideo, hs, ho]
  · intro sr opt e hs ho hc
    refine ⟨{ id := env.newId videos, uid := uid, title := sr.title, script := sr.script,
              videoLength := some length, thumbnailUrl := none, playlist := playlist,
              status := "Processing", optimizedTitle := opt.optimizedTitle,
              optimizedDescription := some opt.optimizedDescription,
              optimizedTags := some opt.optimizedTags,
              optimizedCategory := some opt.optimizedCategory,
              suggestedUploadTime := opt.suggestedUploadTime, createdAt := env.now,
              videoUrl := none, audioUrl := none, operationName := none },
            rfl, rfl, rfl, ?_⟩
    simp [createAndProcessVideo, hs, ho, hc]

/-- Witness for C4 (amended), exercising the render-submission branch at a
concrete input. -/
theorem createAndProcessVideo_failure_boundaries_witness :
    ∃ record, record.status = "Processing" ∧ record.videoUrl = none ∧
      record.audioUrl = none ∧
      createAndProcessVideo demoCreateEnvRenderFail [] [] "alice" .short
          none none none none none =
        ⟨[] ++ [record], [], Except.error "render submission failed"⟩ :=
  (createAndProcessVideo_failure_boundaries demoCreateEnvRenderFail [] [] "alice" .short
      none none none none none).2.2
    ⟨"Title", "Script", "Topic"⟩ ⟨"Title!", "Desc", ["tag"], "Tech", none⟩
    "render submission failed" rfl rfl rfl

/-! ## C6 and C7: auto-pilot quotas -/

/-- A concrete auto-pilot environment over `demoCreateEnvOk`, with the
day and week windows `[0, 10000]` and a new-series suggestion. -/
def demoAutoEnv : AutoEnv :=
  { create := demoCreateEnvOk
    dayStart := 0
    dayEnd := 10000
    weekStart := 0
    weekEnd := 10000
    suggestSeriesStrategy := fun _ => Except.ok ⟨"Space", "SpacePL", true⟩ }

/-- An environment in which every AI collaborator call of the submission
service succeeds (the loops are abort-on-first-failure, so the quota
claims are about the non-failing runs). -/
def CreateEnvOk (env : CreateEnv) : Prop :=
  (∀ i, ∃ r, env.generateVideoScript i = Except.ok r) ∧
  (∀ i, ∃ r, env.optimizeYoutubeUpload i = Except.ok r) ∧
  (∀ s v, ∃ r, env.createAIVideo s v = Except.ok r)

/-- Under a non-failing environment, a submission succeeds. -/
theorem createAndProcessVideo_ok (env : CreateEnv) (videos : VideoStore) (ops : OpCache)
    (uid : String) (length : VideoLength) (playlist topic title insp scr : Option String)
    (h : CreateEnvOk env) :
    ∃ r, (createAndProcessVideo env videos ops uid length playlist topic title insp scr).result =
      Except.ok r := by
  obtain ⟨hg, ho, hc⟩ := h
  have hs : ∃ sr, scriptStep env length topic title insp scr = Except.ok sr := by
    unfold scriptStep
    by_cases ht : truthy scr
    · exact ⟨⟨strOr title "Untitled", scr.getD "", strOr topic "Custom Script"⟩, by simp [ht]⟩
    · obtain ⟨sr, hsr⟩ := hg ⟨length, topic, title, insp⟩
      exact ⟨sr, by simp [ht, hsr]⟩
  obtain ⟨sr, hsr⟩ := hs
  obtain ⟨opt, hopt⟩ := ho ⟨sr.title, sr.script, "Technology", " ", ""⟩
  obtain ⟨opName, hop⟩ := hc sr.script (env.newId videos)
  exact ⟨⟨env.newId videos, opt.optimizedTitle⟩,
    by simp [createAndProcessVideo, hsr, hopt, hop]⟩

/-- Under a non-failing environment, the shorts loop submits exactly its
argument many jobs, each short, playlist-free and prompted with
"a trending topic", and reports success. -/
theorem submitShortJobs_spec (env : CreateEnv) (uid : String) (h : CreateEnvOk env) :
    ∀ (n : Nat) (videos : VideoStore) (ops : OpCache),
      (submitShortJobs env uid n videos ops).submissions =
        List.replicate n ⟨uid, .short, none, some "a trending topic", none⟩ ∧
      (submitShortJobs env uid n videos ops).result = Except.ok () := by
  intro n
  induction n with
  | zero => intro videos ops; exact ⟨rfl, rfl⟩
  | succ n ih =>
    intro videos ops
    obtain ⟨r, hr⟩ := createAndProcessVideo_ok env videos ops uid .short none
      (some "a trending topic") none none none h
    have := ih (createAndProcessVideo env videos ops uid .short none
      (some "a trending topic") none none none).videos
      (createAndProcessVideo env videos ops uid .short none
        (some "a trending topic") none none none).ops
    simp only [submitShortJobs, hr, List.replicate_succ]
    exact ⟨by rw [this.1], this.2⟩

/-- C6: `runAutoPilot(uid, short)` submits exactly
`max(0, 3 − c)` jobs, `c` being the user's short-video count for today's
inclusive calendar-day window; each job is short, has no playlist and
uses the generic "a trending topic" prompt.  In particular `c ≥ 3`
submits zero jobs (`Nat` subtraction is the truncated `Math.max(0, ·)`). -/
theorem runAutoPilot_short_spec (env : AutoEnv) (videos : VideoStore) (ops : OpCache)
    (uid : String) (h : CreateEnvOk env.create) :
    (runAutoPilot env videos ops uid .short).submissions =
      List.replicate (dailyShortGoal - (getTodaysVideoCounts env videos uid).1)
        ⟨uid, .short, none, some "a trending topic", none⟩ ∧
    (runAutoPilot env videos ops uid .short).result = Except.ok () ∧
    ((runAutoPilot env videos ops uid .short).submissions.length : Int) =
      max 0 ((dailyShortGoal : Int) - ((getTodaysVideoCounts env videos uid).1 : Int)) := by
  have hsp := submitShortJobs_spec env.create uid h
    (dailyShortGoal - (getTodaysVideoCounts env videos uid).1) videos ops
  have hrw : runAutoPilot env videos ops uid .short =
      submitShortJobs env.create uid
        (dailyShortGoal - (getTodaysVideoCounts env videos uid).1) videos ops := rfl
  rw [hrw]
  refine ⟨hsp.1, hsp.2, ?_⟩
  rw [hsp.1, List.length_replicate]
  omega

/-- Witness for C6: an empty store (count 0) gets exactly three short jobs. -/
theorem runAutoPilot_short_spec_witness :
    (runAutoPilot demoAutoEnv [] [] "alice" .short).submissions =
      List.replicate (dailyShortGoal - (getTodaysVideoCounts demoAutoEnv [] "alice").1)
        ⟨"alice", .short, none, some "a trending topic", none⟩ ∧
    (runAutoPilot demoAutoEnv [] [] "alice" .short).result = Except.ok () ∧
    ((runAutoPilot demoAutoEnv [] [] "alice" .short).submissions.length : Int) =
      max 0 ((dailyShortGoal : Int) - ((getTodaysVideoCounts demoAutoEnv [] "alice").1 : Int)) :=
  runAutoPilot_short_spec demoAutoEnv [] [] "alice"
    ⟨fun _ => ⟨_, rfl⟩, fun _ => ⟨_, rfl⟩, fun _ _ => ⟨_, rfl⟩⟩

/-- Under a non-failing environment, the long-form loop submits exactly
its argument many jobs titled `"{topic} - Part {part + i}"`, all long and
all sharing the chosen playlist, and reports success. -/
theorem submitLongJobs_spec (env : CreateEnv) (uid topic playlist : String)
    (h : CreateEnvOk env) :
    ∀ (n part : Nat) (videos : VideoStore) (ops : OpCache),
      (submitLongJobs env uid topic playlist part n videos ops).submissions =
        (List.range n).map (fun i =>
          ⟨uid, .long, some playlist, some topic,
            some (topic ++ " - Part " ++ toString (part + i))⟩) ∧
      (submitLongJobs env uid topic playlist part n videos ops).result = Except.ok () := by
  intro n
  induction n with
  | zero => intro part videos ops; exact ⟨rfl, rfl⟩
  | succ n ih =>
    intro part videos ops
    obtain ⟨r, hr⟩ := createAndProcessVideo_ok env videos ops uid .long (some playlist)
      (some topic) (some (topic ++ " - Part " ++ toString part)) none none h
    have hrest := ih (part + 1)
      (createAndProcessVideo env videos ops uid .long (some playlist) (some topic)
        (some (topic ++ " - Part " ++ toString part)) none none).videos
      (createAndProcessVideo env videos ops uid .long (some playlist) (some topic)
        (some (topic ++ " - Part " ++ toString part)) none none).ops
    simp only [submitLongJobs, hr]
    refine ⟨?_, hrest.2⟩
    rw [hrest.1, List.range_succ_eq_map, List.map_cons, List.map_map]
    refine congrArg₂ _ (by simp) ?_
    refine congrArg₂ _ ?_ rfl
    funext i
    simp [Function.comp, Nat.add_assoc, Nat.add_comm 1 i]

/-- C7: with a positive weekly long-form deficit `d`, `runAutoPilot(uid,
long)` submits exactly `d` long jobs all sharing the suggested playlist,
titled `"{topic} - Part {n}"` with `n` starting at 1 for a new series and
at `countVideosInPlaylist + 1` for a continuing one, incrementing by 1
per job. -/
theorem runAutoPilot_long_spec (env : AutoEnv) (videos : VideoStore) (ops : OpCache)
    (uid : String) (sugg : SeriesSuggestion)
    (h : CreateEnvOk env.create)
    (hs : env.suggestSeriesStrategy (getPlaylists videos uid) = Except.ok sugg)
    (hd : 0 < weeklyLongGoal - (getThisWeeksVideoCounts env videos uid).2) :
    (runAutoPilot env videos ops uid .long).submissions =
      (List.range (weeklyLongGoal - (getThisWeeksVideoCounts env videos uid).2)).map (fun i =>
        ⟨uid, .long, some sugg.playlist, some sugg.topic,
          some (sugg.topic ++ " - Part " ++ toString
            ((if sugg.isNewSeries then 1
              else countVideosInPlaylist videos uid sugg.playlist + 1) + i))⟩) ∧
    (runAutoPilot env videos ops uid .long).result = Except.ok () := by
  have hrw : runAutoPilot env videos ops uid .long =
      submitLongJobs env.create uid sugg.topic sugg.playlist
        (if sugg.isNewSeries then 1 else countVideosInPlaylist videos uid sugg.playlist + 1)
        (weeklyLongGoal - (getThisWeeksVideoCounts env videos uid).2) videos ops := by
    simp only [runAutoPilot, hd, if_pos, hs]
  rw [hrw]
  exact submitLongJobs_spec env.create uid sugg.topic sugg.playlist h _ _ videos ops

/-- Witness for C7: empty store, deficit 2, new series — the two jobs are
"Space - Part 1" and "Space - Part 2" in the shared playlist. -/
theorem runAutoPilot_long_spec_witness :
    (runAutoPilot demoAutoEnv [] [] "alice" .long).submissions =
      (List.range (weeklyLongGoal - (getThisWeeksVideoCounts demoAutoEnv [] "alice").2)).map
        (fun i =>
          ⟨"alice", .long, some (⟨"Space", "SpacePL", true⟩ : SeriesSuggestion).playlist,
            some (⟨"Space", "SpacePL", true⟩ : SeriesSuggestion).topic,
            some ((⟨"Space", "SpacePL", true⟩ : SeriesSuggestion).topic ++ " - Part " ++
              toString
                ((if (⟨"Space", "SpacePL", true⟩ : SeriesSuggestion).isNewSeries then 1
                  else countVideosInPlaylist [] "alice"
                    (⟨"Space", "SpacePL", true⟩ : SeriesSuggestion).playlist + 1) + i))⟩) ∧
    (runAutoPilot demoAutoEnv [] [] "alice" .long).result = Except.ok () :=
  runAutoPilot_long_spec demoAutoEnv [] [] "alice" ⟨"Space", "SpacePL", true⟩
    ⟨fun _ => ⟨_, rfl⟩, fun _ => ⟨_, rfl⟩, fun _ _ => ⟨_, rfl⟩⟩ rfl (by decide)

/-! ## C10: counts are status-blind -/

/-- The shorts/longs fold tallies exactly the lengths of the
`videoLength` filters, independently of every other field. -/
theorem foldl_tallyLength (l : List VideoDetails) : ∀ acc : Nat × Nat,
    l.foldl tallyLength acc =
      (acc.1 + (l.filter (fun v => v.videoLength == some VideoLength.short)).length,
       acc.2 + (l.filter (fun v => v.videoLength == some VideoLength.long)).length) := by
  induction l with
  | nil => intro acc; simp
  | cons v t ih =>
    intro acc
    simp only [List.foldl_cons, List.filter_cons]
    rcases hvl : v.videoLength with _ | vl
    · simp [tallyLength, hvl, ih]
    · cases vl
      · simp only [tallyLength, hvl, ih]
        simp
        omega
      · simp only [tallyLength, hvl, ih]
        simp
        omega

/-- C10: the day/week count queries tally every video of the user in the
window regardless of its status — remapping every record's status
arbitrarily leaves both counts unchanged, and each count is exactly the
number of window-and-owner-filtered records of the matching length class
(no status condition), so `Processing` and `Failed` videos count toward
the auto-pilot goals and are never replaced. -/
theorem counts_ignore_status (videos : VideoStore) (uid : String) (lo hi : Nat)
    (f : String → String) :
    countInWindow (videos.map (fun v => { v with status := f v.status })) uid lo hi =
      countInWindow videos uid lo hi ∧
    (countInWindow videos uid lo hi).1 =
      ((videos.filter (fun v =>
          v.uid == uid && decide (lo ≤ v.createdAt) && decide (v.createdAt ≤ hi))).filter
        (fun v => v.videoLength == some VideoLength.short)).length ∧
    (countInWindow videos uid lo hi).2 =
      ((videos.filter (fun v =>
          v.uid == uid && decide (lo ≤ v.createdAt) && decide (v.createdAt ≤ hi))).filter
        (fun v => v.videoLength == some VideoLength.long)).length := by
  refine ⟨?_, ?_, ?_⟩
  · unfold countInWindow
    rw [List.filter_map, List.foldl_map]
    rfl
  · rw [countInWindow, foldl_tallyLength]
    simp
  · rw [countInWindow, foldl_tallyLength]
    simp

/-! ## C8: ownership scoping -/

/-- C8 counterexample: it is NOT the case that every video read is
restricted to records owned by the requesting user — `getVideo` takes no
requester and returns the record for any caller.  Concretely, requester
"bob" reads alice's record `"v1"` successfully. -/
theorem getVideo_not_owner_scoped :
    ¬ (∀ (requester : String) (videos : VideoStore) (videoId : String) (v : VideoDetails),
        getVideo videos videoId = some v → v.uid = requester) := by
  intro h
  have := h "bob" [demoVidDone] "v1" demoVidDone rfl
  simp [demoVidDone] at this

/-- C8 (amended): the collection queries (`getAllVideos`, the day/week
count query, `getPlaylists`, `countVideosInPlaylist`) are scoped by the
owning-user ID — removing every other user's record leaves their results
unchanged — but the point reads used by `getVideo` and through it
`checkVideoStatus` select by document ID alone, with no ownership check:
for every requester there is a store where the point read returns another
user's record. -/
theorem video_query_owner_scoping (videos : VideoStore) (uid playlist videoId : String)
    (lo hi : Nat) :
    getAllVideos (videos.filter (fun v => v.uid == uid)) uid = getAllVideos videos uid ∧
    countInWindow (videos.filter (fun v => v.uid == uid)) uid lo hi =
      countInWindow videos uid lo hi ∧
    getPlaylists (videos.filter (fun v => v.uid == uid)) uid = getPlaylists videos uid ∧
    countVideosInPlaylist (videos.filter (fun v => v.uid == uid)) uid playlist =
      countVideosInPlaylist videos uid playlist ∧
    getVideo videos videoId = videos.find? (fun v => v.id == videoId) ∧
    ∃ (vs : VideoStore) (vid : String) (v : VideoDetails),
      getVideo vs vid = some v ∧ v.uid ≠ uid := by
  have h1 : getAllVideos (videos.filter (fun v => v.uid == uid)) uid =
      getAllVideos videos uid := by
    unfold getAllVideos
    rw [List.filter_filter]
    exact List.filter_congr (fun a _ => by cases a.uid == uid <;> simp)
  refine ⟨h1, ?_, ?_, ?_, rfl, ?_⟩
  · unfold countInWindow
    rw [List.filter_filter]
    refine congrArg (List.foldl tallyLength (0, 0)) ?_
    exact List.filter_congr (fun a _ => by cases a.uid == uid <;> simp)
  · unfold getPlaylists
    rw [h1]
  · unfold countVideosInPlaylist
    rw [List.filter_filter]
    refine congrArg List.length ?_
    exact List.filter_congr (fun a _ => by cases a.uid == uid <;> simp)
  · refine ⟨[{ demoVidDone with uid := uid ++ "!" }], "v1",
      { demoVidDone with uid := uid ++ "!" }, rfl, ?_⟩
    intro heq
    have hlen := congrArg String.length heq
    simp [String.length_append] at hlen
    exact absurd hlen (by decide)

/-! ## C1: terminal statuses imply both asset URLs -/

/-- The per-record invariant of C1: a terminal status (`Generated`,
`Scheduled`, `Published`) implies both asset URLs are populated and
non-empty, and the two URLs are set or unset together. -/
def VideoInv (v : VideoDetails) : Prop :=
  ((v.status = "Generated" ∨ v.status = "Scheduled" ∨ v.status = "Published") →
    truthy v.videoUrl = true ∧ truthy v.audioUrl = true) ∧
  (v.videoUrl.isSome ↔ v.audioUrl.isSome)

/-- The store-wide invariant: every record satisfies `VideoInv`. -/
def StoreInv (videos : VideoStore) : Prop := ∀ v ∈ videos, VideoInv v

/-- The asset store hands out real URLs: a successful `getDownloadURL`
never returns the empty string. -/
def UrlsOk (env : CheckEnv) : Prop :=
  (∀ id r, env.videoDownloadUrl id = Except.ok r → r ≠ "") ∧
  (∀ id r, env.audioDownloadUrl id = Except.ok r → r ≠ "")

/-- A successful materialization derives its URLs from the asset store. -/
theorem materialize_ok_urls (env : CheckEnv) (videoId script mediaUrl u a : String)
    (h : materialize env videoId script mediaUrl = Except.ok (u, a)) :
    env.videoDownloadUrl videoId = Except.ok u ∧
    env.audioDownloadUrl videoId = Except.ok a := by
  unfold materialize at h
  simp only [Bind.bind, Except.bind] at h
  cases h1 : env.uploadVideo videoId mediaUrl with
  | error e => rw [h1] at h; simp at h
  | ok u1 =>
  rw [h1] at h
  simp only [] at h
  cases h2 : env.videoDownloadUrl videoId with
  | error e => rw [h2] at h; simp at h
  | ok vu =>
  rw [h2] at h
  simp only [] at h
  cases h3 : env.generateSpeechAudio script with
  | error e => rw [h3] at h; simp at h
  | ok sp =>
  rw [h3] at h
  simp only [] at h
  cases h4 : env.uploadAudio videoId sp with
  | error e => rw [h4] at h; simp at h
  | ok u2 =>
  rw [h4] at h
  simp only [] at h
  cases h5 : env.audioDownloadUrl videoId with
  | error e => rw [h5] at h; simp at h
  | ok au =>
  rw [h5] at h
  simp only [Except.ok.injEq, Prod.mk.injEq] at h
  obtain ⟨hv, ha⟩ := h
  subst hv; subst ha
  exact ⟨rfl, rfl⟩

/-- Every branch of the reconciliation flow leaves the video store
unchanged, writes only `{status := Failed}`, or writes both non-empty
URLs together with a terminal status obtained from the asset store. -/
theorem checkVideoStatusFlow_videos_cases (env : CheckEnv) (videos : VideoStore)
    (ops : OpCache) (videoId : String) :
    (checkVideoStatusFlow env videos ops videoId).videos = videos ∨
    (checkVideoStatusFlow env videos ops videoId).videos =
      updateVideoMetadata videos videoId { status := some "Failed" } ∨
    ∃ u a, env.videoDownloadUrl videoId = Except.ok u ∧
      env.audioDownloadUrl videoId = Except.ok a ∧
      ∃ st, (st = "Scheduled" ∨ st = "Generated") ∧
        (checkVideoStatusFlow env videos ops videoId).videos =
          updateVideoMetadata videos videoId
            { status := some st, videoUrl := some u, audioUrl := some a } := by
  cases hf : getVideo videos videoId with
  | none => exact Or.inl (by simp [checkVideoStatusFlow, hf])
  | some vd =>
    cases hu : (truthy vd.videoUrl && truthy vd.audioUrl) with
    | true => exact Or.inl (by simp [checkVideoStatusFlow, hf, hu])
    | false =>
      cases ho : truthy vd.operationName with
      | false => exact Or.inr (Or.inl (by simp [checkVideoStatusFlow, hf, hu, ho]))
      | true =>
        rcases hget : getOperation ops env.now (vd.operationName.getD "") with ⟨opt, ops'⟩
        cases opt with
        | none => exact Or.inr (Or.inl (by simp [checkVideoStatusFlow, hf, hu, ho, hget]))
        | some info =>
          by_cases hd : info.operation.done = true
          · cases herr : info.operation.error with
            | some e =>
              exact Or.inr (Or.inl
                (by simp [checkVideoStatusFlow, hf, hu, ho, hget, hd, herr]))
            | none =>
              cases hme : findMediaUrl info.operation with
              | none =>
                exact Or.inr (Or.inl
                  (by simp [checkVideoStatusFlow, hf, hu, ho, hget, hd, herr, hme]))
              | some mediaUrl =>
                cases hmat : materialize env videoId vd.script mediaUrl with
                | error e =>
                  exact Or.inr (Or.inl
                    (by simp [checkVideoStatusFlow, hf, hu, ho, hget, hd, herr, hme, hmat]))
                | ok p =>
                  obtain ⟨u, a⟩ := p
                  obtain ⟨hvurl, haurl⟩ := materialize_ok_urls env videoId vd.script
                    mediaUrl u a hmat
                  refine Or.inr (Or.inr ⟨u, a, hvurl, haurl,
                    if truthy vd.suggestedUploadTime then "Scheduled" else "Generated",
                    ?_, ?_⟩)
                  · cases hsug : truthy vd.suggestedUploadTime <;> simp [hsug]
                  · simp [checkVideoStatusFlow, hf, hu, ho, hget, hd, herr, hme, hmat]
          · rw [Bool.not_eq_true] at hd
            cases hd2 : (env.checkOperation info.operation).done with
            | false =>
              exact Or.inl (by simp [checkVideoStatusFlow, hf, hu, ho, hget, hd, hd2])
            | true =>
              cases herr : (env.checkOperation info.operation).error with
              | some e =>
                exact Or.inr (Or.inl
                  (by simp [checkVideoStatusFlow, hf, hu, ho, hget, hd, hd2, herr]))
              | none =>
                cases hme : findMediaUrl (env.checkOperation info.operation) with
                | none =>
                  exact Or.inr (Or.inl
                    (by simp [checkVideoStatusFlow, hf, hu, ho, hget, hd, hd2, herr, hme]))
                | some mediaUrl =>
                  cases hmat : materialize env videoId vd.script mediaUrl with
                  | error e =>
                    exact Or.inr (Or.inl (by
                      simp [checkVideoStatusFlow, hf, hu, ho, hget, hd, hd2, herr, hme, hmat]))
                  | ok p =>
                    obtain ⟨u, a⟩ := p
                    obtain ⟨hvurl, haurl⟩ := materialize_ok_urls env videoId vd.script
                      mediaUrl u a hmat
                    refine Or.inr (Or.inr ⟨u, a, hvurl, haurl,
                      if truthy vd.suggestedUploadTime then "Scheduled" else "Generated",
                      ?_, ?_⟩)
                    · cases hsug : truthy vd.suggestedUploadTime <;> simp [hsug]
                    · simp [checkVideoStatusFlow, hf, hu, ho, hget, hd, hd2, herr, hme, hmat]

/-- Marking a record `Failed` preserves the invariant. -/
theorem videoInv_applyPatch_failed (v : VideoDetails) (hv : VideoInv v) :
    VideoInv (applyPatch v { status := some "Failed" }) := by
  obtain ⟨_, hiff⟩ := hv
  constructor
  · intro hst
    rcases hst with h | h | h <;> simp [applyPatch] at h
  · simpa [applyPatch] using hiff

/-- Writing both non-empty URLs together with a terminal status
establishes the invariant outright. -/
theorem videoInv_applyPatch_success (v : VideoDetails) (st u a : String)
    (hu : u ≠ "") (ha : a ≠ "") :
    VideoInv (applyPatch v { status := some st, videoUrl := some u, audioUrl := some a }) := by
  constructor
  · intro _
    simp [applyPatch, truthy, hu, ha]
  · simp [applyPatch]

/-- Recording the operation name touches neither status nor URLs. -/
theorem videoInv_applyPatch_opName (v : VideoDetails) (n : String) (hv : VideoInv v) :
    VideoInv (applyPatch v { operationName := some n }) := by
  obtain ⟨h1, h2⟩ := hv
  exact ⟨by simpa [applyPatch] using h1, by simpa [applyPatch] using h2⟩

/-- A merge write whose patch preserves the per-record invariant
preserves the store invariant. -/
theorem storeInv_updateVideoMetadata (videos : VideoStore) (videoId : String) (p : VideoPatch)
    (hp : ∀ v, VideoInv v → VideoInv (applyPatch v p))
    (h : StoreInv videos) : StoreInv (updateVideoMetadata videos videoId p) := by
  intro v hv
  rw [updateVideoMetadata] at hv
  obtain ⟨w, hw, rfl⟩ := List.mem_map.mp hv
  by_cases hid : w.id = videoId
  · simpa [hid] using hp w (h w hw)
  · simpa [hid] using h w hw

/-- Appending an invariant-satisfying record preserves the store invariant. -/
theorem storeInv_append (videos : VideoStore) (v : VideoDetails)
    (h : StoreInv videos) (hv : VideoInv v) : StoreInv (videos ++ [v]) := by
  intro w hw
  rcases List.mem_append.mp hw with h1 | h1
  · exact h w h1
  · rw [List.mem_singleton] at h1
    subst h1
    exact hv

/-- The job-submission service preserves the store invariant: it only
appends a `Processing` record without URLs (and possibly stamps its
operation name). -/
theorem createAndProcessVideo_preserves_storeInv (env : CreateEnv) (videos : VideoStore)
    (ops : OpCache) (uid : String) (length : VideoLength)
    (playlist topic title insp scr : Option String)
    (h : StoreInv videos) :
    StoreInv (createAndProcessVideo env videos ops uid length playlist topic title
      insp scr).videos := by
  cases hs : scriptStep env length topic title insp scr with
  | error e =>
    have hv1 : (createAndProcessVideo env videos ops uid length playlist topic title
        insp scr).videos = videos := by
      simp [createAndProcessVideo, hs]
    rw [hv1]; exact h
  | ok sr =>
    cases ho : env.optimizeYoutubeUpload ⟨sr.title, sr.script, "Technology", " ", ""⟩ with
    | error e =>
      have hv1 : (createAndProcessVideo env videos ops uid length playlist topic title
          insp scr).videos = videos := by
        simp [createAndProcessVideo, hs, ho]
      rw [hv1]; exact h
    | ok opt =>
      have hrec : VideoInv
          { id := env.newId videos, uid := uid, title := sr.title, script := sr.script,
            videoLength := some length, thumbnailUrl := none, playlist := playlist,
            status := "Processing", optimizedTitle := opt.optimizedTitle,
            optimizedDescription := some opt.optimizedDescription,
            optimizedTags := some opt.optimizedTags,
            optimizedCategory := some opt.optimizedCategory,
            suggestedUploadTime := opt.suggestedUploadTime, createdAt := env.now,
            videoUrl := none, audioUrl := none, operationName := none } := by
        constructor
        · intro hst
          rcases hst with hh | hh | hh <;> simp at hh
        · simp
      cases hc : env.createAIVideo sr.script (env.newId videos) with
      | error e =>
        have hv1 : (createAndProcessVideo env videos ops uid length playlist topic title
            insp scr).videos = videos ++
              [{ id := env.newId videos, uid := uid, title := sr.title, script := sr.script,
                 videoLength := some length, thumbnailUrl := none, playlist := playlist,
                 status := "Processing", optimizedTitle := opt.optimizedTitle,
                 optimizedDescription := some opt.optimizedDescription,
                 optimizedTags := some opt.optimizedTags,
                 optimizedCategory := some opt.optimizedCategory,
                 suggestedUploadTime := opt.suggestedUploadTime, createdAt := env.now,
                 videoUrl := none, audioUrl := none, operationName := none }] := by
          simp [createAndProcessVideo, hs, ho, hc]
        rw [hv1]
        exact storeInv_append videos _ h hrec
      | ok opName =>
        have hv1 : (createAndProcessVideo env videos ops uid length playlist topic title
            insp scr).videos = updateVideoMetadata (videos ++
              [{ id := env.newId videos, uid := uid, title := sr.title, script := sr.script,
                 videoLength := some length, thumbnailUrl := none, playlist := playlist,
                 status := "Processing", optimizedTitle := opt.optimizedTitle,
                 optimizedDescription := some opt.optimizedDescription,
                 optimizedTags := some opt.optimizedTags,
                 optimizedCategory := some opt.optimizedCategory,
                 suggestedUploadTime := opt.suggestedUploadTime, createdAt := env.now,
                 videoUrl := none, audioUrl := none, operationName := none }])
              (env.newId videos) { operationName := some opName } := by
          simp [createAndProcessVideo, hs, ho, hc]
        rw [hv1]
        exact storeInv_updateVideoMetadata _ _ _
          (fun v hv => videoInv_applyPatch_opName v opName hv)
          (storeInv_append videos _ h hrec)

/-- The reconciliation flow preserves the store invariant, provided the
asset store only hands out non-empty URLs. -/
theorem checkVideoStatusFlow_preserves_storeInv (env : CheckEnv) (videos : VideoStore)
    (ops : OpCache) (videoId : String) (henv : UrlsOk env) (h : StoreInv videos) :
    StoreInv (checkVideoStatusFlow env videos ops videoId).videos := by
  rcases checkVideoStatusFlow_videos_cases env videos ops videoId with
    hc | hc | ⟨u, a, hu, ha, st, _, hc⟩
  · rw [hc]; exact h
  · rw [hc]
    exact storeInv_updateVideoMetadata _ _ _ (fun v hv => videoInv_applyPatch_failed v hv) h
  · rw [hc]
    exact storeInv_updateVideoMetadata _ _ _
      (fun v _ => videoInv_applyPatch_success v st u a (henv.1 _ _ hu) (henv.2 _ _ ha)) h

/-- The joint state of the document store and the operation cache. -/
structure SysState where
  videos : VideoStore
  ops : OpCache

/-- One step of the core: a job submission (any environment) or a
status-reconciliation call (any environment whose asset store hands out
non-empty URLs). -/
inductive Step : SysState → SysState → Prop where
  | create (env : CreateEnv) (uid : String) (length : VideoLength)
      (playlist topic title insp scr : Option String) (s : SysState) :
      Step s ⟨(createAndProcessVideo env s.videos s.ops uid length playlist topic title
                insp scr).videos,
              (createAndProcessVideo env s.videos s.ops uid length playlist topic title
                insp scr).ops⟩
  | check (env : CheckEnv) (videoId : String) (s : SysState) (henv : UrlsOk env) :
      Step s ⟨(checkVideoStatusFlow env s.videos s.ops videoId).videos,
              (checkVideoStatusFlow env s.videos s.ops videoId).ops⟩

/-- The empty initial state. -/
def initState : SysState := ⟨[], []⟩

/-- States reachable from the empty store through the core operations. -/
def Reachable (s : SysState) : Prop := Relation.ReflTransGen Step initState s

/-- C1: in every reachable state, a record with status `Generated`,
`Scheduled` or `Published` has both `videoUrl` and `audioUrl` populated
and non-empty, and no record has one URL set and the other unset — the
flow persists both URLs together with the terminal status in one
metadata update. -/
theorem reachable_terminal_urls (s : SysState) (h : Reachable s) : StoreInv s.videos := by
  induction h with
  | refl => intro v hv; cases hv
  | tail _ hbc ih =>
    cases hbc with
    | create env uid length playlist topic title insp scr =>
      exact createAndProcessVideo_preserves_storeInv env _ _ uid length
        playlist topic title insp scr ih
    | check env videoId s henv =>
      exact checkVideoStatusFlow_preserves_storeInv env _ _ videoId henv ih

/-- Witness for C1: the state after one concrete submission from the
empty store is reachable and satisfies the invariant. -/
theorem reachable_terminal_urls_witness :
    Reachable ⟨(createAndProcessVideo demoCreateEnvOk [] [] "alice" VideoLength.short
        none none none none none).videos,
      (createAndProcessVideo demoCreateEnvOk [] [] "alice" VideoLength.short
        none none none none none).ops⟩ ∧
    StoreInv (createAndProcessVideo demoCreateEnvOk [] [] "alice" VideoLength.short
        none none none none none).videos := by
  have hr : Reachable ⟨(createAndProcessVideo demoCreateEnvOk [] [] "alice" VideoLength.short
        none none none none none).videos,
      (createAndProcessVideo demoCreateEnvOk [] [] "alice" VideoLength.short
        none none none none none).ops⟩ :=
    Relation.ReflTransGen.single
      (Step.create demoCreateEnvOk "alice" VideoLength.short none none none none none initState)
  exact ⟨hr, reachable_terminal_urls _ hr⟩

end VideoPipeline
